import Mathlib

/-!
Verification of the execution-and-reconciliation pipeline of the
long_context_relic repository against its specification.

The Python sources are shallowly embedded as Lean definitions:

* `load_log`              — scripts/extract_window_from_log.py, `load_log`
* `merge_existing_output` — scripts/extract_window_from_log.py, `main` (merge step)
* `parse_jsonl` / `compute_stats` — scripts/stats_from_log.py
* `get_response` retry loop / `run_single` — scripts/run_inference.py
  (tenacity retry with stop_after_attempt 3, wait_exponential 1 2 60)
* `construct_prompt`      — scripts/run_inference.py
* `response_validation`, `correctness_evaluation`, `line_number_evaluation`,
  `extract_line_number`   — scripts/utils.py

Strings parsed from JSON are modelled after Python's json.loads output:
a missing field and a JSON null both come out of `dict.get` as None and are
modelled as `Option.none`.  Fuzzy-match scores (rapidfuzz) are an external
collaborator and are passed in as an opaque score function.
-/

namespace Relic

/-- Python dict lookup on an association list (exact key equality). -/
def alookup {κ α : Type} [DecidableEq κ] (k : κ) : List (κ × α) → Option α
  | [] => none
  | p :: ps => if p.1 = k then some p.2 else alookup k ps

/-- Python dict insertion: overwrite the value in place when the key is
already present (preserving position), otherwise append at the end. -/
def dictInsert {κ α : Type} [DecidableEq κ] (m : List (κ × α)) (k : κ) (v : α) :
    List (κ × α) :=
  match m with
  | [] => [(k, v)]
  | p :: ps => if p.1 = k then (k, v) :: ps else p :: dictInsert ps k v

/-- Python `\s` on ASCII text. -/
def isSpaceChar (c : Char) : Bool :=
  c = ' ' ∨ c = '\t' ∨ c = '\n' ∨ c = '\x0d' ∨ c = '\x0b' ∨ c = '\x0c'

/-- Python `str.strip()` on ASCII text. -/
def pyStrip (s : String) : String :=
  String.mk (((s.toList.dropWhile isSpaceChar).reverse.dropWhile isSpaceChar).reverse)

/-- First-of-two-options (Python-style fall-through). -/
def oalt {α : Type} (a b : Option α) : Option α :=
  match a with
  | some x => some x
  | none => b

/-! ## ResumableLog read model (extract_window_from_log.load_log) -/

/-- One parsed JSON log object, restricted to the fields `load_log` reads.
`uuid` and `book_title` hold the `str(...)`-converted field value, `none`
when the field is missing or JSON null.  `payload` stands opaquely for the
rest of the record (`response_raw`, `usage`, ...). -/
structure LogObj where
  uuid : Option String
  book_title : Option String
  model : Option String
  payload : String
deriving DecidableEq

/-- One physical line of the log file, as seen after `line.strip()`:
blank, not valid JSON, or a parsed record. -/
inductive LogLine where
  | empty : LogLine
  | malformed : LogLine
  | parsed (o : LogObj) : LogLine
deriving DecidableEq

/-- Composite key `(uuid, book_title, model)`. -/
abbrev LogKey := String × String × String

/-- The key under which `load_log` stores a record: `none` when the record
is skipped (`if not uuid or not book_title: continue`); the model component
defaults to "unknown" when the model field is missing or null. -/
def keyOf (o : LogObj) : Option LogKey :=
  match o.uuid, o.book_title with
  | some u, some b =>
      if u = "" ∨ b = "" then none else some (u, b, o.model.getD "unknown")
  | _, _ => none

/-- One iteration of the `for line in f` loop of `load_log`. -/
def loadStep (m : List (LogKey × LogObj)) (l : LogLine) : List (LogKey × LogObj) :=
  match l with
  | .empty => m
  | .malformed => m
  | .parsed o =>
      match keyOf o with
      | some k => dictInsert m k o
      | none => m

/-- Function `load_log`: sequential scan of the file, building `records[key] = obj`
with insertion overwrite on duplicate keys. -/
def load_log (lines : List LogLine) : List (LogKey × LogObj) :=
  lines.foldl loadStep []

/-- Spec-side view: the record parsed from the line with the greatest file
offset among well-formed lines carrying key `k` (`none` if there is none). -/
def lastRecordWithKey (lines : List LogLine) (k : LogKey) : Option LogObj :=
  match lines with
  | [] => none
  | l :: ls =>
      oalt (lastRecordWithKey ls k)
        (match l with
         | .parsed o => if keyOf o = some k then some o else none
         | _ => none)

/-! ## AlignedTable merge model (extract_window_from_log.main, merge step) -/

/-- Join key of the aligned table: `(uuid, book_title)`, both `astype(str)`. -/
abbrev RowKey := String × String

/-- One table row as a mapping from (non-key) column name to cell; a cell
holding `none` is a pandas NaN. -/
abbrev Row := List (String × Option String)

/-- A pandas DataFrame indexed by `(uuid, book_title)`: its non-key column
names in order, and its rows keyed by the index. -/
structure Table where
  cols : List String
  rows : List (RowKey × Row)
deriving DecidableEq

/-- Cell access: a column absent from the row reads as NaN. -/
def getCell (r : Row) (c : String) : Option String :=
  (alookup c r).join

/-- Cell access by index and column, NaN for a missing key or column. -/
def tableCell (t : Table) (k : RowKey) (c : String) : Option String :=
  match alookup k t.rows with
  | some r => getCell r c
  | none => none

/-- Effect on one destination row of the merge loop
`for col in df.columns: out_df[col] = df[col]`: every column of the new
frame is (over)written into the row, index-aligned — a key absent from the
new frame yields NaN in those columns. -/
def mergeRow (newT : Table) (k : RowKey) (r : Row) : Row :=
  newT.cols.foldl (fun acc c => dictInsert acc c (tableCell newT k c)) r

/-- The merge step of `main` when the destination CSV exists and has the
join keys: keep the destination's rows, assign every column of this pass's
frame into them (adding columns as needed), then `df = out_df`. -/
def merge_existing_output (dest newT : Table) : Table :=
  { cols := dest.cols ++ newT.cols.filter (fun c => decide (c ∉ dest.cols)),
    rows := dest.rows.map (fun p => (p.1, mergeRow newT p.1 p.2)) }

/-! ## Standalone stats tool (stats_from_log.py) -/

/-- The cost_details sub-object read through an or-empty-dict guard; each field is `none`
when missing or null (both read as 0 through `.get(..., 0) or 0`). -/
structure CostDetails where
  upstream_inference_prompt_cost : Option ℚ
  upstream_inference_completions_cost : Option ℚ
deriving DecidableEq

/-- The token/cost counters of a `usage` object; `none` = missing or null,
read as 0 through `.get(..., 0) or 0`. -/
structure UsageObj where
  prompt_tokens : Option ℤ
  completion_tokens : Option ℤ
  total_tokens : Option ℤ
  cost : Option ℚ
  cost_details : Option CostDetails
deriving DecidableEq

/-- The `usage` field of a record: absent (read as `{}` via
`rec.get("usage", {})`), JSON null (a later `.get` on it raises — the run
crashes), or a usage object. -/
inductive UsageField where
  | absent : UsageField
  | null : UsageField
  | val (u : UsageObj) : UsageField
deriving DecidableEq

/-- One parsed log record as read by stats_from_log / spec key fields.
`model` / `status` are `none` when the field is missing (read as "unknown"
through `rec.get(..., "unknown")`). -/
structure SRec where
  uuid : Option String
  book_title : Option String
  model : Option String
  status : Option String
  usage : UsageField
deriving DecidableEq

/-- One physical line of the log as seen by `parse_jsonl`. -/
inductive SLine where
  | empty : SLine
  | malformed : SLine
  | parsed (r : SRec) : SLine
deriving DecidableEq

/-- Function `parse_jsonl`: keep every well-formed line, in file order; blank and
malformed lines are silently skipped.  No deduplication happens here. -/
def parse_jsonl (lines : List SLine) : List SRec :=
  lines.filterMap fun l =>
    match l with
    | .parsed r => some r
    | _ => none

/-- Spec-side composite key of a stats record. -/
def sKey (r : SRec) : Option String × Option String × Option String :=
  (r.uuid, r.book_title, r.model)

/-- Spec-side last-write-wins collapse over `(uuid, book_title, model)`:
only the last occurrence of each key survives, in the order keys first
appear.  (This is what the read contract of the spec prescribes; it is used
to compare against what the stats tool actually computes.) -/
def lwwCollapse (rs : List SRec) : List SRec :=
  (rs.foldl (fun acc r => dictInsert acc (sKey r) r) []).map (fun p => p.2)

/-- Per-model accumulator of `compute_stats` (`by_model` defaultdict). -/
structure ModelStats where
  requests : ℕ
  ok_count : ℕ
  prompt_tokens : ℤ
  completion_tokens : ℤ
  total_tokens : ℤ
  prompt_cost : ℚ
  completion_cost : ℚ
  total_cost : ℚ
deriving DecidableEq

/-- Zero-initialised per-model entry (the defaultdict default). -/
def ModelStats.init : ModelStats :=
  { requests := 0, ok_count := 0, prompt_tokens := 0, completion_tokens := 0,
    total_tokens := 0, prompt_cost := 0, completion_cost := 0, total_cost := 0 }

/-- The global accumulator of `compute_stats`. -/
structure Stats where
  total_requests : ℕ
  ok_count : ℕ
  error_count : ℕ
  prompt_tokens : ℤ
  completion_tokens : ℤ
  total_tokens : ℤ
  prompt_cost : ℚ
  completion_cost : ℚ
  total_cost : ℚ
  by_model : List (String × ModelStats)
deriving DecidableEq

def Stats.init : Stats :=
  { total_requests := 0, ok_count := 0, error_count := 0, prompt_tokens := 0,
    completion_tokens := 0, total_tokens := 0, prompt_cost := 0,
    completion_cost := 0, total_cost := 0, by_model := [] }

/-- The defaultdict update: apply `f` to the entry for `key`, creating it
zero-initialised on first access. -/
def updModel (m : List (String × ModelStats)) (key : String)
    (f : ModelStats → ModelStats) : List (String × ModelStats) :=
  dictInsert m key (f ((alookup key m).getD ModelStats.init))

/-- Python `round` (banker's rounding, half to even) of a rational. -/
def halfEvenZ (q : ℚ) : ℤ :=
  let f := ⌊q⌋
  if q - f < 1 / 2 then f
  else if q - f > 1 / 2 then f + 1
  else if f % 2 = 0 then f else f + 1

/-- Python `round(q, d)` on rationals. -/
def pyRound (q : ℚ) (d : ℕ) : ℚ :=
  (halfEvenZ (q * 10 ^ d) : ℚ) / 10 ^ d

/-- The token/cost values drawn from one record's usage field after the
`or 0` defaulting, `none` when the usage value is JSON null (the code
crashes there with an AttributeError). -/
def usageVals (u : UsageField) : Option (ℤ × ℤ × ℤ × ℚ × ℚ × ℚ) :=
  match u with
  | .null => none
  | .absent => some (0, 0, 0, 0, 0, 0)
  | .val uo =>
      let cd := uo.cost_details.getD
        { upstream_inference_prompt_cost := none,
          upstream_inference_completions_cost := none }
      some (uo.prompt_tokens.getD 0, uo.completion_tokens.getD 0,
            uo.total_tokens.getD 0, uo.cost.getD 0,
            cd.upstream_inference_prompt_cost.getD 0,
            cd.upstream_inference_completions_cost.getD 0)

/-- One iteration of the `for rec in records` loop of `compute_stats`;
`none` models the crash on a null usage field. -/
def statsStep (s : Stats) (r : SRec) : Option Stats :=
  let model := r.model.getD "unknown"
  let status := r.status.getD "unknown"
  let s1 : Stats :=
    { s with
      total_requests := s.total_requests + 1,
      ok_count := if status = "ok" then s.ok_count + 1 else s.ok_count,
      error_count := if status = "ok" then s.error_count else s.error_count + 1,
      by_model :=
        updModel
          (if status = "ok" then
            updModel s.by_model model (fun ms => { ms with ok_count := ms.ok_count + 1 })
          else s.by_model)
          model (fun ms => { ms with requests := ms.requests + 1 }) }
  match usageVals r.usage with
  | none => none
  | some (pt, ct, tt, tc, pc, cc) =>
      some
        { s1 with
          prompt_tokens := s1.prompt_tokens + pt,
          completion_tokens := s1.completion_tokens + ct,
          total_tokens := s1.total_tokens + tt,
          prompt_cost := s1.prompt_cost + pc,
          completion_cost := s1.completion_cost + cc,
          total_cost := s1.total_cost + tc,
          by_model :=
            updModel s1.by_model model
              (fun ms =>
                { ms with
                  prompt_tokens := ms.prompt_tokens + pt,
                  completion_tokens := ms.completion_tokens + ct,
                  total_tokens := ms.total_tokens + tt,
                  prompt_cost := ms.prompt_cost + pc,
                  completion_cost := ms.completion_cost + cc,
                  total_cost := ms.total_cost + tc }) }

/-- The record-accumulation loop of `compute_stats`. -/
def statsFold (s : Stats) : List SRec → Option Stats
  | [] => some s
  | r :: rs =>
      match statsStep s r with
      | none => none
      | some s2 => statsFold s2 rs

/-- Final cost rounding of `compute_stats` (round(x, 6), globally and per
model). -/
def roundStats (s : Stats) : Stats :=
  { s with
    prompt_cost := pyRound s.prompt_cost 6,
    completion_cost := pyRound s.completion_cost 6,
    total_cost := pyRound s.total_cost 6,
    by_model :=
      s.by_model.map fun p =>
        (p.1,
         { p.2 with
           prompt_cost := pyRound p.2.prompt_cost 6,
           completion_cost := pyRound p.2.completion_cost 6,
           total_cost := pyRound p.2.total_cost 6 }) }

/-- Function `compute_stats`: per-record accumulation over ALL records it is given,
then cost rounding; `none` models the crash on a record whose usage field
is JSON null. -/
def compute_stats (rs : List SRec) : Option Stats :=
  (statsFold Stats.init rs).map roundStats

/-! ## RequestExecutor retry model (run_inference.py)

`ModelInference.get_response` is decorated with tenacity
`retry(retry_if_exception_type(Exception), wait_exponential(multiplier=1,
min=2, max=60), stop_after_attempt(3))`.  The transport call is modelled as
a function from the 1-based attempt number to either a response string or
an exception message. -/

/-- tenacity `wait_exponential(multiplier=1, min=2, max=60)`: the sleep
after failed attempt number `k` is `max(min, min(multiplier * 2^(k-1),
max))`. -/
def waitExp (k : ℕ) : ℚ :=
  max 2 (min ((2 : ℚ) ^ (k - 1)) 60)

/-- The tenacity retry loop: attempt `k`, with `fuel` further attempts
allowed by `stop_after_attempt`; returns the final outcome, the number of
the last attempt made, and the list of backoff sleeps taken. -/
def retryGo (call : ℕ → Except String String) (k fuel : ℕ) (delays : List ℚ) :
    Except String String × ℕ × List ℚ :=
  match call k with
  | .ok v => (.ok v, k, delays)
  | .error e =>
      match fuel with
      | 0 => (.error e, k, delays)
      | fuel2 + 1 => retryGo call (k + 1) fuel2 (delays ++ [waitExp k])

/-- Function `get_response` under the retry decorator: first attempt is number 1,
`stop_after_attempt(3)` allows 2 further attempts; after exhaustion the
last exception propagates (wrapped in a RetryError). -/
def get_response (call : ℕ → Except String String) :
    Except String String × ℕ × List ℚ :=
  retryGo call 1 2 []

/-- The fields of the log entry built by `run_single` that the claims
refer to.  The prompt-construction error path of the code writes a record
without a `model` key, hence `model : Option String`. -/
structure ResultRecord where
  uuid : String
  book_title : String
  model : Option String
  status : String
  response_raw : Option String
  error : Option String
deriving DecidableEq

/-- Function `run_single`: construct the prompt (a `ValueError` is recorded
immediately as an error entry, without any remote call), otherwise call
`get_response`; any exception escaping the retry loop is caught and turned
into a `status="error"` entry.  The function is total: no exception is
re-raised to the caller. -/
def run_single (promptRes : Except String String)
    (call : ℕ → Except String String) (uuid book model : String) : ResultRecord :=
  match promptRes with
  | .error e =>
      { uuid := uuid, book_title := book, model := none, status := "error",
        response_raw := none, error := some e }
  | .ok _prompt =>
      match (get_response call).1 with
      | .ok content =>
          { uuid := uuid, book_title := book, model := some model,
            status := "ok", response_raw := some content, error := none }
      | .error e =>
          { uuid := uuid, book_title := book, model := some model,
            status := "error", response_raw := none, error := some e }

/-- One unit of work of a batch: its key fields and the outcome of prompt
construction for its row. -/
structure WorkItem where
  uuid : String
  book_title : String
  promptRes : Except String String

/-- One batch of the processing loop of `main_async`: `asyncio.gather`
over `run_single` for every row, then each entry is appended to the log
exactly once. -/
def processBatch (model : String) (calls : WorkItem → ℕ → Except String String)
    (items : List WorkItem) : List ResultRecord :=
  items.map fun it => run_single it.promptRes (calls it) it.uuid it.book_title model

/-! ## Prompt construction (run_inference.construct_prompt) -/

/-- Normalization `book_title.replace(" ", "_").lower()` — replacing the single
character " " and lowercasing are both character-wise. -/
def normalize_book_key (s : String) : String :=
  String.mk (s.toList.map fun c => if c = ' ' then '_' else c.toLower)

/-- The input-row fields `construct_prompt` reads; `full_mask_comment` is
`row.get("Full_Mask_comment")` (`none` = missing or NaN). -/
structure PromptRow where
  book_title : String
  full_mask_comment : Option String
deriving DecidableEq

/-- The reference-text corpus: book key to ordered list of text lines. -/
abbrev BooksData := List (String × List String)

/-- Function `construct_prompt` for tasks 1-4.  The prompt-template registry is an
external collaborator and is passed in as the total function `template`
from the format kwargs to the rendered prompt.  `Except.error` models the
`ValueError`s raised for a missing mask field or a book key not found. -/
def construct_prompt (row : PromptRow) (task_type : ℕ)
    (books_data : Option BooksData)
    (template : List (String × String) → String) : Except String String :=
  let lit := row.full_mask_comment.getD ""
  if lit = "" then
    .error "Missing required field Full_Mask_comment in input row."
  else
    let normalized := normalize_book_key row.book_title
    let kwargs (bs : String) : List (String × String) :=
      [("book_title", row.book_title), ("book_sentences", bs),
       ("lit_analysis_excerpt", lit), ("book_title_snake_case", normalized)]
    match task_type with
    | 1 =>
        match books_data.bind (fun bd => alookup normalized bd) with
        | none => .error "Book content not found in provided JSON."
        | some ls => .ok (template (kwargs (String.intercalate " " ls)))
    | 3 =>
        match books_data.bind (fun bd => alookup normalized bd) with
        | none => .error "Book content not found in provided JSON."
        | some ls =>
            let numbered :=
              String.intercalate "\n"
                ((List.range ls.length).zipWith
                  (fun i line => toString (i + 1) ++ " " ++ line) ls)
            .ok (template (kwargs numbered ++
              [("book_sentences_with_line_numbers", numbered)]))
    | _ => .ok (template (kwargs ""))

/-! ## Validity check (utils.response_validation) -/

/-- The fields of one row that `response_validation` reads and writes.
`response` is the `response_{model}` cell (`none` = missing/NaN/non-str),
`err` the `response_{model}_ERROR` cell.  `rest` stands opaquely for every
other column of the row. -/
structure VRow where
  book_title : String
  response : Option String
  err : Option String
  rest : List (String × String)
deriving DecidableEq

/-- Python truthy non-empty-after-strip string check used throughout
utils.py (`isinstance(x, str) and x.strip() != ""`). -/
def strOk (x : Option String) : Bool :=
  match x with
  | some s => !(pyStrip s = "")
  | none => false

/-- The metrics dict returned by `response_validation` (`matches_count`
embeds the "matches" entry; `matches` is a reserved word in Lean). -/
structure VMetrics where
  total_eval : ℕ
  matches_count : ℕ
  not_in_primary_source : ℕ
  match_rate : ℚ
deriving DecidableEq

/-- The row loop of `response_validation`: returns the annotated rows and
the three counters, or `none` when `book_sentences[row["book_title"]]`
raises a KeyError (raw, un-normalized key lookup).  The ERROR column has
already been re-initialised to None for every row before the loop. -/
def rvGo (score : String → String → ℚ) (threshold : ℚ)
    (book_sentences : BooksData) : List VRow → Option (List VRow × ℕ × ℕ × ℕ)
  | [] => some ([], 0, 0, 0)
  | r :: rs =>
      let r0 : VRow := { r with err := none }
      if strOk r.response then
        match alookup r.book_title book_sentences with
        | none => none
        | some ls =>
            let primary := String.intercalate " " ls
            let sc := score primary ((r.response).getD "")
            match rvGo score threshold book_sentences rs with
            | none => none
            | some (outs, te, m, nm) =>
                if sc > threshold then
                  some (r0 :: outs, te + 1, m + 1, nm)
                else
                  some ({ r0 with
                          err := some "Model generated window not found in primary source" }
                        :: outs, te + 1, m, nm + 1)
      else
        match rvGo score threshold book_sentences rs with
        | none => none
        | some (outs, te, m, nm) => some (r0 :: outs, te, m, nm)

/-- Function `response_validation`: annotate rows and compute the validity metrics;
`none` models the KeyError crash on a book title absent from the corpus. -/
def response_validation (score : String → String → ℚ) (threshold : ℚ)
    (book_sentences : BooksData) (rows : List VRow) :
    Option (List VRow × VMetrics) :=
  match rvGo score threshold book_sentences rows with
  | none => none
  | some (outs, te, m, nm) =>
      some (outs,
        { total_eval := te, matches_count := m, not_in_primary_source := nm,
          match_rate := if te > 0 then pyRound ((m : ℚ) / te * 100) 1 else 0 })

/-! ## Correctness check (utils.correctness_evaluation) -/

/-- The fields of one row that `correctness_evaluation` touches.
`corr` is the `correctness_{model}_FUZZY_MATCH` cell, `filterVal` the cell
of the optional boolean subset column; `rest` stands opaquely for every
other column of the row. -/
structure CRow where
  answer_quote_text : Option String
  response : Option String
  err : Option String
  corr : Option Bool
  filterVal : Option Bool
  rest : List (String × String)
deriving DecidableEq

/-- The metrics dict returned by `correctness_evaluation`. -/
structure CMetrics where
  total : ℕ
  total_valid : ℕ
  correct : ℕ
  incorrect : ℕ
  accuracy : ℚ
  avg_length_ratio : Option ℚ
deriving DecidableEq

/-- The column-creation preamble: `df[err_col] = None` when the ERROR
column is absent (on both frames). -/
def cPrep (hasErrCol : Bool) (r : CRow) : CRow :=
  if hasErrCol then r else { r with err := none }

/-- The per-row classification written into the `corr` column by the loop
of `correctness_evaluation` (rows skipped by the subset filter keep the
pre-initialised None). -/
def cClassify (score : String → String → ℚ) (threshold : ℚ)
    (useFilter : Bool) (r : CRow) : Option Bool :=
  if useFilter ∧ r.filterVal ≠ some true then none
  else if ¬ strOk r.answer_quote_text then none
  else if strOk r.response ∧ r.err = none then
    some (score ((r.answer_quote_text).getD "") ((r.response).getD "") > threshold)
  else none

/-- Whether the row reaches the fuzzy-score branch (counts in
`total_valid` and contributes a length ratio). -/
def cScored (useFilter : Bool) (r : CRow) : Bool :=
  (!useFilter || r.filterVal = some true) &&
  strOk r.answer_quote_text && strOk r.response && r.err = none

/-- The length ratio of response to ground truth for a scored row. -/
def cLenRat (r : CRow) : ℚ :=
  (((r.response).getD "").length : ℚ) / (((r.answer_quote_text).getD "").length : ℚ)

/-- Function `correctness_evaluation(df, model, threshold, filter_col)`:
returns the annotated copy and the metrics dict.  `useFilter` says whether
a `filter_col` was passed; `hasErrCol` whether the ERROR column already
exists in the input frame. -/
def correctness_evaluation (score : String → String → ℚ) (threshold : ℚ)
    (useFilter hasErrCol : Bool) (rows : List CRow) : List CRow × CMetrics :=
  let prepped := rows.map (cPrep hasErrCol)
  let outs := prepped.map fun r => { r with corr := cClassify score threshold useFilter r }
  let scored := prepped.filter (fun r => cScored useFilter r)
  let correct :=
    (scored.filter (fun r =>
      decide (score ((r.answer_quote_text).getD "") ((r.response).getD "") > threshold))).length
  let incorrect := scored.length - correct
  let ratios := scored.map cLenRat
  let n := if useFilter then (rows.filter (fun r => r.filterVal = some true)).length
           else rows.length
  (outs,
   { total := n,
     total_valid := scored.length,
     correct := correct,
     incorrect := incorrect,
     accuracy := if n > 0 then pyRound ((correct : ℚ) / n * 100) 1 else 0,
     avg_length_ratio :=
       if ratios.length > 0 then some (pyRound (ratios.sum / ratios.length) 2)
       else none })

/-! ## Line-number check (utils.line_number_evaluation) -/

/-- A cell of the response column as seen by `extract_line_number`:
a numeric value, a string, or anything else (None/NaN/non-str). -/
inductive NCell where
  | num (n : ℤ) : NCell
  | str (s : String) : NCell
  | null : NCell
deriving DecidableEq

/-- Python `\w` on ASCII text. -/
def isWordChar (c : Char) : Bool :=
  c.isAlpha ∨ c.isDigit ∨ c = '_'

/-- Case-insensitive literal match; returns the remaining input. -/
def matchLit : List Char → List Char → Option (List Char)
  | [], rest => some rest
  | _ :: _, [] => none
  | p :: ps, c :: cs => if p.toLower = c.toLower then matchLit ps cs else none

/-- Skip a maximal run of `\s` characters. -/
def skipSpaces : List Char → List Char
  | [] => []
  | c :: cs => if isSpaceChar c then skipSpaces cs else c :: cs

/-- Maximal run of digits and the remaining input. -/
def takeDigits : List Char → List Char × List Char
  | [] => ([], [])
  | c :: cs =>
      if c.isDigit then
        let p := takeDigits cs
        (c :: p.1, p.2)
      else ([], c :: cs)

/-- Python `int()` of a digit run. -/
def digitsToNat (ds : List Char) : ℕ :=
  ds.foldl (fun a c => a * 10 + (c.toNat - 48)) 0

/-- Try to match the regex `<line>\s*(\d+)\s*</line>` (IGNORECASE) at the
head of the input. -/
def tagMatchAt (cs : List Char) : Option ℤ := do
  let r1 ← matchLit "<line>".toList cs
  let r2 := skipSpaces r1
  let p := takeDigits r2
  if p.1 = [] then none
  else
    let r4 := skipSpaces p.2
    let _ ← matchLit "</line>".toList r4
    some (digitsToNat p.1 : ℤ)

/-- Search of the tag pattern as re.search does it: leftmost match position wins. -/
def tagSearch : List Char → Option ℤ
  | [] => none
  | c :: cs =>
      match tagMatchAt (c :: cs) with
      | some n => some n
      | none => tagSearch cs

/-- Search for the first bare integer, leftmost maximal digit run flanked by
word boundaries.  `prevWord` tells whether the character before the
current position is a word character. -/
def bareIntFrom (prevWord : Bool) : List Char → Option ℕ
  | [] => none
  | c :: rest =>
      if c.isDigit ∧ prevWord = false then
        let p := takeDigits (c :: rest)
        match p.2 with
        | [] => some (digitsToNat p.1)
        | c2 :: _ =>
            if isWordChar c2 then bareIntFrom (isWordChar c) rest
            else some (digitsToNat p.1)
      else bareIntFrom (isWordChar c) rest

/-- First bare integer in free text. -/
def firstBareInt (s : String) : Option ℤ :=
  (bareIntFrom false s.toList).map fun n => (n : ℤ)

/-- Function `extract_line_number`: a numeric cell is used as-is; a non-string
yields None; otherwise the `<line>` tag number, else the first bare
integer. -/
def extract_line_number (t : NCell) : Option ℤ :=
  match t with
  | .num n => some n
  | .null => none
  | .str s =>
      match tagSearch s.toList with
      | some n => some n
      | none => firstBareInt s

/-- The fields of one row that `line_number_evaluation` touches.
`answer_quote_idx` is the ground-truth cell after the
`int(float(str(gt)))` conversion (`none` = NaN or unparseable). -/
structure LRow where
  response : NCell
  answer_quote_idx : Option ℤ
  err : Option String
  line_exact : Option Bool
  line_within5 : Option Bool
  line_within20 : Option Bool
  rest : List (String × String)
deriving DecidableEq

/-- The metrics dict returned by `line_number_evaluation`. -/
structure LMetrics where
  total : ℕ
  total_valid : ℕ
  exact : ℕ
  within5 : ℕ
  within20 : ℕ
  exact_rate : ℚ
  within5_rate : ℚ
  within20_rate : ℚ
deriving DecidableEq

/-- The per-row bucket triple written by the loop of
`line_number_evaluation`, and whether the row was scored (`some diff`). -/
def lClassify (r : LRow) : (Bool × Bool × Bool) × Option ℤ :=
  match extract_line_number r.response with
  | none => ((false, false, false), none)
  | some pred =>
      if r.err ≠ none then ((false, false, false), none)
      else
        match r.answer_quote_idx with
        | none => ((false, false, false), none)
        | some gt =>
            ((pred = gt, |pred - gt| ≤ 5, |pred - gt| ≤ 20), some (|pred - gt|))

/-- The annotated row produced for `r`. -/
def lAnnotate (r : LRow) : LRow :=
  let c := (lClassify r).1
  { r with line_exact := some c.1, line_within5 := some c.2.1,
           line_within20 := some c.2.2 }

/-- Function `line_number_evaluation(df, model)`: annotate every row with the three
bucket columns and compute the metrics. -/
def line_number_evaluation (rows : List LRow) : List LRow × LMetrics :=
  let outs := rows.map lAnnotate
  let scored := rows.filter (fun r => ((lClassify r).2).isSome)
  let tv := scored.length
  let ec := (scored.filter (fun r => ((lClassify r).1).1 = true)).length
  let c5 := (scored.filter (fun r => ((lClassify r).1).2.1 = true)).length
  let c20 := (scored.filter (fun r => ((lClassify r).1).2.2 = true)).length
  (outs,
   { total := rows.length, total_valid := tv, exact := ec,
     within5 := c5, within20 := c20,
     exact_rate := if tv > 0 then pyRound ((ec : ℚ) / tv * 100) 1 else 0,
     within5_rate := if tv > 0 then pyRound ((c5 : ℚ) / tv * 100) 1 else 0,
     within20_rate := if tv > 0 then pyRound ((c20 : ℚ) / tv * 100) 1 else 0 })

/-! ## Small accessors and concrete fixtures used in the theorems -/

/-- prompt_tokens drawn from a record (0 when its usage is crash-null). -/
def recPT (r : SRec) : ℤ :=
  match usageVals r.usage with
  | some t => t.1
  | none => 0

/-- completion_tokens drawn from a record. -/
def recCT (r : SRec) : ℤ :=
  match usageVals r.usage with
  | some t => t.2.1
  | none => 0

/-- total_tokens drawn from a record. -/
def recTT (r : SRec) : ℤ :=
  match usageVals r.usage with
  | some t => t.2.2.1
  | none => 0

/-- usage cost drawn from a record. -/
def recTC (r : SRec) : ℚ :=
  match usageVals r.usage with
  | some t => t.2.2.2.1
  | none => 0

def exceptOk {ε α : Type} : Except ε α → Bool
  | .ok _ => true
  | .error _ => false

/-- Spec §8 merge scenario: destination row `(u1,b1)` with `colA=5`. -/
def destEx : Table :=
  { cols := ["colA"], rows := [(("u1", "b1"), [("colA", some "5")])] }

/-- Spec §8 merge scenario: the new pass produces `colB=9` for `(u1,b1)`. -/
def newEx : Table :=
  { cols := ["colB"], rows := [(("u1", "b1"), [("colB", some "9")])] }

/-- A well-formed ok-record used to exercise duplicate-key behaviour. -/
def dupRec : SRec :=
  { uuid := some "u1", book_title := some "b1", model := some "m1",
    status := some "ok", usage := UsageField.absent }

/-- A log whose two well-formed lines carry the same
`(uuid, book_title, model)` key. -/
def dupLines : List SLine :=
  [SLine.parsed dupRec, SLine.parsed dupRec]

/-- A row outside the subset (`filterVal = some false`) carrying a
previously computed classification `corr = some true`. -/
def cexCRow : CRow :=
  { answer_quote_text := some "quote", response := some "resp", err := none,
    corr := some true, filterVal := some false, rest := [] }

/-- An in-subset row with a missing response (unevaluable). -/
def cexCRow2 : CRow :=
  { answer_quote_text := some "quote", response := none, err := none,
    corr := none, filterVal := some true, rest := [] }

/-- Corpus keyed by the normalized book key, as the spec prescribes. -/
def booksEx : BooksData := [("the_aeneid", ["arma virumque cano"])]

/-- A validity-check row whose book title is not yet normalized. -/
def vrowEx : VRow :=
  { book_title := "The Aeneid", response := some "ARMA VIRUMQUE CANO TROIAE",
    err := none, rest := [] }

/-- Spec §8 line-distance scenario row. -/
def lrowEx : LRow :=
  { response := NCell.str "the answer is on line 103",
    answer_quote_idx := some 100, err := none, line_exact := none,
    line_within5 := none, line_within20 := none, rest := [] }

/-- A row from which no line number can be extracted. -/
def lrowNoNum : LRow :=
  { response := NCell.str "no digits here", answer_quote_idx := some 7,
    err := none, line_exact := none, line_within5 := none,
    line_within20 := none, rest := [] }

/-! ## General lemmas about the dict model -/

theorem alookup_dictInsert {κ α : Type} [DecidableEq κ] (m : List (κ × α))
    (k k2 : κ) (v : α) :
    alookup k2 (dictInsert m k v) = if k2 = k then some v else alookup k2 m := by
  induction m with
  | nil =>
      by_cases h : k2 = k
      · simp [dictInsert, alookup, h]
      · have h2 : ¬ k = k2 := fun hh => h hh.symm
        simp [dictInsert, alookup, h, h2]
  | cons p ps ih =>
      by_cases hp : p.1 = k
      · by_cases h : k2 = k
        · subst h
          simp [dictInsert, alookup, hp]
        · have hks : ¬ k = k2 := fun hh => h hh.symm
          have hps : ¬ p.1 = k2 := by
            rw [hp]
            exact hks
          simp [dictInsert, alookup, hp, h, hks, hps]
      · by_cases h2 : p.1 = k2
        · have hk2 : ¬ k2 = k := by
            rw [← h2]
            exact hp
          simp [dictInsert, alookup, hp, h2, hk2]
        · simp [dictInsert, alookup, hp, h2, ih]

theorem oalt_none_right {α : Type} (a : Option α) : oalt a none = a := by
  cases a <;> rfl

/-! ## C4 / C10: the log aligner's logical view -/

theorem load_log_go (lines : List LogLine) (acc : List (LogKey × LogObj))
    (k : LogKey) :
    alookup k (lines.foldl loadStep acc) =
      oalt (lastRecordWithKey lines k) (alookup k acc) := by
  induction lines generalizing acc with
  | nil => simp [lastRecordWithKey, oalt]
  | cons l ls ih =>
      cases l with
      | empty =>
          rw [List.foldl_cons]
          have hlast : lastRecordWithKey (LogLine.empty :: ls) k =
              lastRecordWithKey ls k := by
            simp [lastRecordWithKey, oalt_none_right]
          rw [hlast]
          exact ih acc
      | malformed =>
          rw [List.foldl_cons]
          have hlast : lastRecordWithKey (LogLine.malformed :: ls) k =
              lastRecordWithKey ls k := by
            simp [lastRecordWithKey, oalt_none_right]
          rw [hlast]
          exact ih acc
      | parsed o =>
          rcases ho : keyOf o with _ | k0
          · have hstep : loadStep acc (LogLine.parsed o) = acc := by
              simp [loadStep, ho]
            have hlast : lastRecordWithKey (LogLine.parsed o :: ls) k =
                lastRecordWithKey ls k := by
              simp [lastRecordWithKey, ho, oalt_none_right]
            rw [List.foldl_cons, hstep, hlast]
            exact ih acc
          · have hstep : loadStep acc (LogLine.parsed o) = dictInsert acc k0 o := by
              simp [loadStep, ho]
            rw [List.foldl_cons, hstep, ih (dictInsert acc k0 o),
              alookup_dictInsert]
            by_cases hkk : k0 = k
            · subst hkk
              have hlast : lastRecordWithKey (LogLine.parsed o :: ls) k0 =
                  oalt (lastRecordWithKey ls k0) (some o) := by
                simp [lastRecordWithKey, ho]
              rw [hlast, if_pos rfl]
              cases lastRecordWithKey ls k0 <;> rfl
            · have hlast : lastRecordWithKey (LogLine.parsed o :: ls) k =
                  lastRecordWithKey ls k := by
                simp [lastRecordWithKey, ho, hkk, oalt_none_right]
              have hkn : ¬ k = k0 := fun hh => hkk hh.symm
              rw [hlast, if_neg hkn]

/-- C4: the log aligner's logical view of a log file is last-write-wins —
for every key the view holds the record parsed from the well-formed line
with the greatest offset carrying that key, and every malformed or empty
line is silently discarded without affecting any other line's record. -/
theorem load_log_last_write_wins (lines pre post : List LogLine) (k : LogKey) :
    alookup k (load_log lines) = lastRecordWithKey lines k ∧
    load_log (pre ++ LogLine.malformed :: post) = load_log (pre ++ post) ∧
    load_log (pre ++ LogLine.empty :: post) = load_log (pre ++ post) := by
  refine ⟨?_, ?_, ?_⟩
  · have h := load_log_go lines [] k
    simpa [load_log, alookup, oalt_none_right] using h
  · simp [load_log, List.foldl_append, loadStep]
  · simp [load_log, List.foldl_append, loadStep]

/-- C10: a log line whose record lacks a uuid or a book_title (missing,
null, or empty after `str(...)` conversion) is excluded from the view
entirely, while a record whose model field is missing or null is keyed
under the model name "unknown". -/
theorem load_log_key_handling (o o2 : LogObj) (pre post lines : List LogLine)
    (u b : String)
    (h : o.uuid = none ∨ o.uuid = some "" ∨ o.book_title = none ∨
      o.book_title = some "")
    (h2 : o2.uuid = some u) (h3 : o2.book_title = some b)
    (h4 : u ≠ "") (h5 : b ≠ "") (h6 : o2.model = none) :
    load_log (pre ++ LogLine.parsed o :: post) = load_log (pre ++ post) ∧
    alookup (u, b, "unknown") (load_log (lines ++ [LogLine.parsed o2])) =
      some o2 := by
  constructor
  · have hk : keyOf o = none := by
      rcases h with h | h | h | h
      · cases hb : o.book_title <;> simp [keyOf, h, hb]
      · cases hb : o.book_title <;> simp [keyOf, h, hb]
      · cases hu : o.uuid <;> simp [keyOf, h, hu]
      · cases hu : o.uuid <;> simp [keyOf, h, hu]
    simp [load_log, List.foldl_append, loadStep, hk]
  · have hk2 : keyOf o2 = some (u, b, "unknown") := by
      simp [keyOf, h2, h3, h4, h5, h6]
    simp [load_log, List.foldl_append, loadStep, hk2, alookup_dictInsert]

/-- Closed witness for the C10 theorem at a concrete log. -/
theorem load_log_key_handling_witness :
    load_log
        ([LogLine.empty] ++
          LogLine.parsed
            { uuid := none, book_title := some "b", model := some "m",
              payload := "p" } :: []) =
      load_log ([LogLine.empty] ++ []) ∧
    alookup ("u1", "b1", "unknown")
        (load_log ([] ++
          [LogLine.parsed
            { uuid := some "u1", book_title := some "b1", model := none,
              payload := "q" }])) =
      some
        { uuid := some "u1", book_title := some "b1", model := none,
          payload := "q" } :=
  load_log_key_handling
    { uuid := none, book_title := some "b", model := some "m", payload := "p" }
    { uuid := some "u1", book_title := some "b1", model := none, payload := "q" }
    [LogLine.empty] [] [] "u1" "b1" (Or.inl rfl) rfl rfl
    (by decide) (by decide) rfl

/-! ## C1: non-destructive merge -/

theorem alookup_map_snd {κ α β : Type} [DecidableEq κ] (l : List (κ × α))
    (f : κ → α → β) (k : κ) :
    alookup k (l.map fun p => (p.1, f p.1 p.2)) = (alookup k l).map (f k) := by
  induction l with
  | nil => rfl
  | cons p ps ih =>
      by_cases h : p.1 = k
      · simp [alookup, h]
      · simp [alookup, h, ih]

theorem alookup_foldl_dictInsert_notmem (cols : List String)
    (g : String → Option String) (r : Row) (c : String) (hc : c ∉ cols) :
    alookup c (cols.foldl (fun acc c2 => dictInsert acc c2 (g c2)) r) =
      alookup c r := by
  induction cols generalizing r with
  | nil => rfl
  | cons c2 cs ih =>
      rw [List.foldl_cons]
      have h1 : c ∉ cs := fun h => hc (List.mem_cons_of_mem _ h)
      have h2 : ¬ c = c2 := fun h => hc (h ▸ List.mem_cons_self _ _)
      rw [ih _ h1, alookup_dictInsert, if_neg h2]

/-- C1: the aligner merge is non-destructive — when the destination table
exists and has the join keys, every cell of a destination row in a column
that this pass's frame does not produce is carried through unchanged. -/
theorem merge_non_destructive (dest newT : Table) (k : RowKey) (c : String)
    (_hrow : (alookup k dest.rows).isSome = true) (_hcol : c ∈ dest.cols)
    (hc : c ∉ newT.cols) :
    tableCell (merge_existing_output dest newT) k c = tableCell dest k c := by
  unfold tableCell merge_existing_output
  simp only []
  rw [alookup_map_snd dest.rows (fun k2 r => mergeRow newT k2 r) k]
  cases h : alookup k dest.rows with
  | none => rfl
  | some r =>
      simp only [Option.map_some']
      unfold getCell mergeRow
      rw [alookup_foldl_dictInsert_notmem newT.cols (tableCell newT k) r c hc]

/-- Closed witness: the spec §8 merge scenario — destination row
`(u1,b1)` with `colA=5`, new pass `colB=9`; the merged row keeps
`colA=5` (by the theorem) and gains `colB=9`. -/
theorem merge_non_destructive_witness :
    ((alookup ("u1", "b1") destEx.rows).isSome = true ∧
      "colA" ∈ destEx.cols ∧ "colA" ∉ newEx.cols) ∧
    tableCell (merge_existing_output destEx newEx) ("u1", "b1") "colA" =
      tableCell destEx ("u1", "b1") "colA" ∧
    tableCell destEx ("u1", "b1") "colA" = some "5" ∧
    tableCell (merge_existing_output destEx newEx) ("u1", "b1") "colB" =
      some "9" :=
  ⟨⟨by decide, by decide, by decide⟩,
   merge_non_destructive destEx newEx ("u1", "b1") "colA"
     (by decide) (by decide) (by decide),
   by decide, by decide⟩

/-! ## C2: the standalone stats tool does not collapse duplicate keys -/

theorem statsStep_fields (s : Stats) (r : SRec) (h : r.usage ≠ UsageField.null) :
    ∃ s2, statsStep s r = some s2 ∧
      s2.total_requests = s.total_requests + 1 ∧
      s2.ok_count =
        (if r.status.getD "unknown" = "ok" then s.ok_count + 1 else s.ok_count) ∧
      s2.error_count =
        (if r.status.getD "unknown" = "ok" then s.error_count
         else s.error_count + 1) ∧
      s2.prompt_tokens = s.prompt_tokens + recPT r ∧
      s2.completion_tokens = s.completion_tokens + recCT r ∧
      s2.total_tokens = s.total_tokens + recTT r ∧
      s2.total_cost = s.total_cost + recTC r := by
  obtain ⟨pt, ct, tt, tc, pc, cc, hu⟩ :
      ∃ pt ct tt tc pc cc, usageVals r.usage = some (pt, ct, tt, tc, pc, cc) := by
    cases hru : r.usage with
    | null => exact absurd hru h
    | absent => exact ⟨0, 0, 0, 0, 0, 0, rfl⟩
    | val uo => exact ⟨_, _, _, _, _, _, rfl⟩
  cases hs : statsStep s r with
  | none =>
      simp [statsStep, hu] at hs
  | some s2 =>
      simp only [statsStep, hu, Option.some.injEq] at hs
      subst hs
      refine ⟨_, rfl, ?_, ?_, ?_, ?_, ?_, ?_, ?_⟩
      · simp
      · simp
      · simp
      · simp [recPT, hu]
      · simp [recCT, hu]
      · simp [recTT, hu]
      · simp [recTC, hu]

theorem length_filter_split {α : Type} (l : List α) (p : α → Bool) :
    (l.filter p).length + (l.filter (fun a => ! p a)).length = l.length := by
  induction l with
  | nil => rfl
  | cons a l ih =>
      cases h : p a <;> simp [List.filter_cons, h] <;> omega

theorem statsFold_fields (rs : List SRec) (s : Stats)
    (h : ∀ r ∈ rs, r.usage ≠ UsageField.null) :
    ∃ out, statsFold s rs = some out ∧
      out.total_requests = s.total_requests + rs.length ∧
      out.ok_count =
        s.ok_count + (rs.filter (fun r => r.status.getD "unknown" = "ok")).length ∧
      out.error_count =
        s.error_count +
          (rs.filter (fun r => ¬ (r.status.getD "unknown" = "ok"))).length ∧
      out.prompt_tokens = s.prompt_tokens + (rs.map recPT).sum ∧
      out.completion_tokens = s.completion_tokens + (rs.map recCT).sum ∧
      out.total_tokens = s.total_tokens + (rs.map recTT).sum ∧
      out.total_cost = s.total_cost + (rs.map recTC).sum := by
  induction rs generalizing s with
  | nil =>
      exact ⟨s, rfl, by simp, by simp, by simp, by simp, by simp, by simp, by simp⟩
  | cons r rs ih =>
      obtain ⟨s2, hs2, f1, f2, f3, f4, f5, f6, f7⟩ :=
        statsStep_fields s r (h r (List.mem_cons_self r rs))
      obtain ⟨out, hout, g1, g2, g3, g4, g5, g6, g7⟩ :=
        ih s2 (fun x hx => h x (List.mem_cons_of_mem r hx))
      refine ⟨out, ?_, ?_, ?_, ?_, ?_, ?_, ?_, ?_⟩
      · simp [statsFold, hs2, hout]
      · rw [g1, f1]
        simp [List.length_cons]
        omega
      · rw [g2, f2]
        by_cases hok : r.status.getD "unknown" = "ok" <;>
          simp [List.filter_cons, hok] <;> omega
      · rw [g3, f3]
        by_cases hok : r.status.getD "unknown" = "ok" <;>
          simp [List.filter_cons, hok] <;> omega
      · rw [g4, f4]
        simp [add_assoc]
      · rw [g5, f5]
        simp [add_assoc]
      · rw [g6, f6]
        simp [add_assoc]
      · rw [g7, f7]
        simp [add_assoc]

/-- C2 amended: the standalone stats tool computes its statistics over
EVERY well-formed line of the log — duplicate `(uuid, book_title, model)`
keys are NOT collapsed; each occurrence contributes to the counts and to
the token/cost sums (provided no record carries a null usage field, on
which the tool crashes). -/
theorem stats_over_all_lines (lines : List SLine)
    (h : ∀ r ∈ parse_jsonl lines, r.usage ≠ UsageField.null) :
    ∃ s, compute_stats (parse_jsonl lines) = some s ∧
      s.total_requests = (parse_jsonl lines).length ∧
      s.ok_count =
        ((parse_jsonl lines).filter
          (fun r => r.status.getD "unknown" = "ok")).length ∧
      s.ok_count + s.error_count = s.total_requests ∧
      s.prompt_tokens = ((parse_jsonl lines).map recPT).sum ∧
      s.completion_tokens = ((parse_jsonl lines).map recCT).sum ∧
      s.total_tokens = ((parse_jsonl lines).map recTT).sum ∧
      s.total_cost = pyRound (((parse_jsonl lines).map recTC).sum) 6 := by
  obtain ⟨out, hout, g1, g2, g3, g4, g5, g6, g7⟩ :=
    statsFold_fields (parse_jsonl lines) Stats.init h
  refine ⟨roundStats out, ?_, ?_, ?_, ?_, ?_, ?_, ?_, ?_⟩
  · simp [compute_stats, hout]
  · simp [roundStats, g1, Stats.init]
  · simp [roundStats, g2, Stats.init]
  · have hsplit :
        ((parse_jsonl lines).filter
            (fun r => decide (r.status.getD "unknown" = "ok"))).length +
          ((parse_jsonl lines).filter
            (fun r => ! decide (r.status.getD "unknown" = "ok"))).length =
          (parse_jsonl lines).length :=
      length_filter_split _ _
    have g3b := g3
    simp only [decide_not] at g3b
    simp only [roundStats]
    rw [g2, g3b]
    have hi1 : Stats.init.total_requests = 0 := rfl
    have hi2 : Stats.init.ok_count = 0 := rfl
    have hi3 : Stats.init.error_count = 0 := rfl
    omega
  · simp [roundStats, g4, Stats.init]
  · simp [roundStats, g5, Stats.init]
  · simp [roundStats, g6, Stats.init]
  · simp [roundStats, g7, Stats.init]

/-- Closed witness for the C2 amended theorem at a concrete log. -/
theorem stats_over_all_lines_witness :
    (∀ r ∈ parse_jsonl dupLines, r.usage ≠ UsageField.null) ∧
    ∃ s, compute_stats (parse_jsonl dupLines) = some s ∧
      s.total_requests = (parse_jsonl dupLines).length ∧
      s.ok_count =
        ((parse_jsonl dupLines).filter
          (fun r => r.status.getD "unknown" = "ok")).length ∧
      s.ok_count + s.error_count = s.total_requests ∧
      s.prompt_tokens = ((parse_jsonl dupLines).map recPT).sum ∧
      s.completion_tokens = ((parse_jsonl dupLines).map recCT).sum ∧
      s.total_tokens = ((parse_jsonl dupLines).map recTT).sum ∧
      s.total_cost = pyRound (((parse_jsonl dupLines).map recTC).sum) 6 :=
  ⟨by decide, stats_over_all_lines dupLines (by decide)⟩

/-- C2 counterexample: the stats tool is NOT computed over the logical
last-write-wins view — a log whose two well-formed lines share one
`(uuid, book_title, model)` key yields `total_requests = 2`, while the
same statistics over the collapsed view yield `total_requests = 1`. -/
theorem stats_not_lww_counterexample :
    (compute_stats (parse_jsonl dupLines)).map Stats.total_requests = some 2 ∧
    (compute_stats (lwwCollapse (parse_jsonl dupLines))).map
      Stats.total_requests = some 1 ∧
    compute_stats (parse_jsonl dupLines) ≠
      compute_stats (lwwCollapse (parse_jsonl dupLines)) := by
  refine ⟨rfl, rfl, ?_⟩
  intro h
  have h2 : (compute_stats (parse_jsonl dupLines)).map Stats.total_requests =
      (compute_stats (lwwCollapse (parse_jsonl dupLines))).map
        Stats.total_requests := by
    rw [h]
  have h3 : (some 2 : Option ℕ) = some 1 := by
    calc (some 2 : Option ℕ)
        = (compute_stats (parse_jsonl dupLines)).map Stats.total_requests := rfl
      _ = (compute_stats (lwwCollapse (parse_jsonl dupLines))).map
            Stats.total_requests := h2
      _ = some 1 := rfl
  exact absurd h3 (by decide)

/-! ## C3: retry bound, backoff, and error containment -/

/-- C3: when the remote call always raises, the executor makes exactly 3
attempts (the `stop_after_attempt(3)` bound), sleeps the exponential
backoff (base 2s, cap 60s) between consecutive attempts, then records the
row as exactly one `status="error"` entry at its position in the batch;
the exception is not re-raised and the batch is not aborted (one log entry
per row, the other rows unaffected). -/
theorem retry_bound_and_containment (call : ℕ → Except String String)
    (e : ℕ → String) (h : ∀ n, call n = .error (e n))
    (u b model prompt : String) (pre post : List WorkItem) (it : WorkItem)
    (calls : WorkItem → ℕ → Except String String)
    (hit : it.promptRes = .ok prompt) (hcall : calls it = call) :
    (get_response call).2.1 = 3 ∧
    (get_response call).1 = .error (e 3) ∧
    (get_response call).2.2 = [waitExp 1, waitExp 2] ∧
    (∀ d ∈ (get_response call).2.2, 2 ≤ d ∧ d ≤ 60) ∧
    run_single (.ok prompt) call u b model =
      { uuid := u, book_title := b, model := some model, status := "error",
        response_raw := none, error := some (e 3) } ∧
    (processBatch model calls (pre ++ it :: post)).length =
      pre.length + 1 + post.length ∧
    (processBatch model calls (pre ++ it :: post)).get? pre.length =
      some
        { uuid := it.uuid, book_title := it.book_title, model := some model,
          status := "error", response_raw := none, error := some (e 3) } := by
  have hrun : get_response call = (.error (e 3), 3, [waitExp 1, waitExp 2]) := by
    simp [get_response, retryGo, h 1, h 2, h 3]
  refine ⟨by rw [hrun], by rw [hrun], by rw [hrun], ?_, ?_, ?_, ?_⟩
  · rw [hrun]
    intro d hd
    have hw : ∀ k : ℕ, 2 ≤ waitExp k ∧ waitExp k ≤ 60 := by
      intro k
      constructor
      · exact le_max_left 2 _
      · have h2 : (0 : ℚ) < 2 := by norm_num
        have hp : (0 : ℚ) ≤ (2 : ℚ) ^ (k - 1) := le_of_lt (pow_pos h2 _)
        have : min ((2 : ℚ) ^ (k - 1)) 60 ≤ 60 := min_le_right _ _
        exact max_le (by norm_num) this
    simp only [List.mem_cons, List.not_mem_nil, or_false] at hd
    rcases hd with rfl | rfl
    · exact hw 1
    · exact hw 2
  · simp [run_single, hrun]
  · simp [processBatch]
    omega
  · have hlen : (pre.map
        (fun x => run_single x.promptRes (calls x) x.uuid x.book_title model)).length =
        pre.length := List.length_map _ _
    rw [processBatch, List.map_append, List.map_cons]
    rw [List.get?_append_right (by omega)]
    rw [hlen, Nat.sub_self]
    simp [run_single, hit, hcall, hrun]

/-- Closed witness for C3: a transport that raises "boom" on every
attempt, in a batch of one row. -/
theorem retry_bound_and_containment_witness :
    (∀ n : ℕ, (fun _ : ℕ => (Except.error "boom" : Except String String)) n =
      .error ((fun _ : ℕ => "boom") n)) ∧
    (get_response (fun _ => .error "boom")).2.1 = 3 ∧
    (get_response (fun _ => .error "boom")).1 = .error "boom" ∧
    (processBatch "m1" (fun _ => fun _ => .error "boom")
      ([] ++ { uuid := "u1", book_title := "b1",
               promptRes := .ok "p" } :: [])).get? 0 =
      some
        { uuid := "u1", book_title := "b1", model := some "m1",
          status := "error", response_raw := none, error := some "boom" } := by
  have h :=
    retry_bound_and_containment (fun _ => .error "boom") (fun _ => "boom")
      (fun _ => rfl) "u1" "b1" "m1" "p" [] []
      { uuid := "u1", book_title := "b1", promptRes := .ok "p" }
      (fun _ => fun _ => .error "boom") rfl rfl
  exact ⟨fun _ => rfl, h.1, h.2.1, h.2.2.2.2.2.2⟩

/-! ## C5 / C6: subset filtering in the correctness check -/

theorem cClassify_none (score : String → String → ℚ) (th : ℚ) (uf : Bool)
    (r : CRow)
    (hu : strOk r.answer_quote_text = false ∨ strOk r.response = false ∨
      r.err ≠ none) :
    cClassify score th uf r = none := by
  rcases hu with hu | hu | hu <;> simp [cClassify, hu]

/-- C5 counterexample: a row outside the subset (filter cell not `true`)
carrying a previously computed classification is mutated by the returned
annotated table — its classification column is reset to null. -/
theorem correctness_filter_mutates_counterexample :
    cexCRow.filterVal ≠ some true ∧
    (correctness_evaluation (fun _ _ => 0) 90 true true [cexCRow]).1 ≠
      [cexCRow] ∧
    (correctness_evaluation (fun _ _ => 0) 90 true true [cexCRow]).1 =
      [{ cexCRow with corr := none }] := by
  refine ⟨by decide, by decide, by decide⟩

/-- C5 amended: with a subset filter, an out-of-subset row of the returned
table is unchanged in every column EXCEPT the model's classification
column, which the function unconditionally re-initialises to null for
every row (assuming the ERROR column already exists, which is otherwise
added as all-null). -/
theorem correctness_filter_resets_only_corr (score : String → String → ℚ)
    (th : ℚ) (rows : List CRow) (i : ℕ) (r : CRow)
    (h : rows.get? i = some r) (hf : r.filterVal ≠ some true) :
    (correctness_evaluation score th true true rows).1.get? i =
      some { r with corr := none } := by
  simp only [correctness_evaluation]
  rw [List.get?_map, List.get?_map, h]
  simp [cPrep, cClassify, hf]

/-- Closed witness for the C5 amended theorem. -/
theorem correctness_filter_resets_only_corr_witness :
    ([cexCRow].get? 0 = some cexCRow ∧ cexCRow.filterVal ≠ some true) ∧
    (correctness_evaluation (fun _ _ => 0) 90 true true [cexCRow]).1.get? 0 =
      some { cexCRow with corr := none } :=
  ⟨⟨rfl, by decide⟩,
   correctness_filter_resets_only_corr (fun _ _ => 0) 90 [cexCRow] 0 cexCRow
     rfl (by decide)⟩

/-- C6: the reported total `n` equals the number of rows whose subset cell
is exactly `true` (all rows when no filter is given), however many of the
subset rows are unevaluable; an unevaluable in-subset row (missing ground
truth, missing response, or prior validity error) receives a null
classification, which is distinct from `false`. -/
theorem correctness_denominator (score : String → String → ℚ) (th : ℚ)
    (hasErr : Bool) (rows : List CRow) (i : ℕ) (r : CRow)
    (h : rows.get? i = some r) (hf : r.filterVal = some true)
    (hu : strOk r.answer_quote_text = false ∨ strOk r.response = false ∨
      r.err ≠ none) :
    (correctness_evaluation score th true hasErr rows).2.total =
      (rows.filter (fun x => x.filterVal = some true)).length ∧
    (correctness_evaluation score th false hasErr rows).2.total =
      rows.length ∧
    (correctness_evaluation score th true true rows).1.get? i =
      some { r with corr := none } ∧
    (none : Option Bool) ≠ some false := by
  refine ⟨by simp [correctness_evaluation], by simp [correctness_evaluation],
    ?_, by decide⟩
  simp only [correctness_evaluation]
  rw [List.get?_map, List.get?_map, h]
  simp [cPrep, cClassify_none score th true r hu]

/-- Closed witness for C6: a two-row table whose in-subset row has no
response and whose other row is outside the subset. -/
theorem correctness_denominator_witness :
    ([cexCRow2, cexCRow].get? 0 = some cexCRow2 ∧
      cexCRow2.filterVal = some true ∧ strOk cexCRow2.response = false) ∧
    ((correctness_evaluation (fun _ _ => 0) 90 true true
        [cexCRow2, cexCRow]).2.total =
      ([cexCRow2, cexCRow].filter (fun x => x.filterVal = some true)).length ∧
    (correctness_evaluation (fun _ _ => 0) 90 false true
        [cexCRow2, cexCRow]).2.total = ([cexCRow2, cexCRow] : List CRow).length ∧
    (correctness_evaluation (fun _ _ => 0) 90 true true
        [cexCRow2, cexCRow]).1.get? 0 = some { cexCRow2 with corr := none } ∧
    (none : Option Bool) ≠ some false) :=
  ⟨⟨rfl, rfl, rfl⟩,
   correctness_denominator (fun _ _ => 0) 90 true [cexCRow2, cexCRow] 0
     cexCRow2 rfl rfl (Or.inr (Or.inl rfl))⟩

/-! ## C7: corpus lookup keys -/

/-- C7 counterexample: the validity check fetches the reference text with
the RAW `book_title` — for a title with spaces and uppercase it raises a
KeyError (modelled `none`) even though the corpus holds the entry under
the normalized key. -/
theorem corpus_lookup_counterexample :
    response_validation (fun _ _ => 100) 80 booksEx [vrowEx] = none ∧
    (alookup (normalize_book_key vrowEx.book_title) booksEx).isSome = true := by
  exact ⟨by decide, by decide⟩

/-- C7 amended: prompt construction (tasks 1 and 3) keys every corpus
lookup by the normalized book key (lowercased, spaces→underscores), while
the validity check keys by the row's raw `book_title` unchanged; the two
agree exactly on titles that are already normalized. -/
theorem corpus_lookup_keys (row : PromptRow) (books : BooksData)
    (template : List (String × String) → String) (score : String → String → ℚ)
    (th : ℚ) (vrow : VRow) (t : String)
    (hm : row.full_mask_comment.getD "" ≠ "")
    (hresp : strOk vrow.response = true)
    (hnorm : normalize_book_key t = t) :
    (exceptOk (construct_prompt row 1 (some books) template) =
      (alookup (normalize_book_key row.book_title) books).isSome) ∧
    (exceptOk (construct_prompt row 3 (some books) template) =
      (alookup (normalize_book_key row.book_title) books).isSome) ∧
    ((response_validation score th books [vrow]).isSome =
      (alookup vrow.book_title books).isSome) ∧
    alookup (normalize_book_key t) books = alookup t books := by
  refine ⟨?_, ?_, ?_, by rw [hnorm]⟩
  · cases hl : alookup (normalize_book_key row.book_title) books <;>
      simp [construct_prompt, hm, exceptOk, hl]
  · cases hl : alookup (normalize_book_key row.book_title) books <;>
      simp [construct_prompt, hm, exceptOk, hl]
  · cases hl : alookup vrow.book_title books with
    | none => simp [response_validation, rvGo, hresp, hl]
    | some ls =>
        by_cases hsc :
            score (String.intercalate " " ls) ((vrow.response).getD "") > th <;>
          simp [response_validation, rvGo, hresp, hl, hsc]

/-- Closed witness for the C7 amended theorem. -/
theorem corpus_lookup_keys_witness :
    (({ book_title := "The Aeneid",
        full_mask_comment := some "mask" } : PromptRow).full_mask_comment.getD
        "" ≠ "" ∧
      strOk ({ book_title := "the_aeneid", response := some "arma",
               err := none, rest := [] } : VRow).response = true ∧
      normalize_book_key "the_aeneid" = "the_aeneid") ∧
    exceptOk (construct_prompt
        { book_title := "The Aeneid", full_mask_comment := some "mask" } 1
        (some booksEx) (fun _ => "")) =
      (alookup (normalize_book_key "The Aeneid") booksEx).isSome ∧
    (response_validation (fun _ _ => 100) 80 booksEx
        [{ book_title := "the_aeneid", response := some "arma", err := none,
           rest := [] }]).isSome =
      (alookup "the_aeneid" booksEx).isSome :=
  ⟨⟨by decide, by decide, by decide⟩,
   (corpus_lookup_keys
      { book_title := "The Aeneid", full_mask_comment := some "mask" }
      booksEx (fun _ => "") (fun _ _ => 100) 80
      { book_title := "the_aeneid", response := some "arma", err := none,
        rest := [] }
      "the_aeneid" (by decide) (by decide) (by decide)).1,
   (corpus_lookup_keys
      { book_title := "The Aeneid", full_mask_comment := some "mask" }
      booksEx (fun _ => "") (fun _ _ => 100) 80
      { book_title := "the_aeneid", response := some "arma", err := none,
        rest := [] }
      "the_aeneid" (by decide) (by decide) (by decide)).2.2.1⟩

/-! ## C8 / C9: line-number extraction and distance buckets -/

theorem lClassify_scored (r : LRow) :
    ((lClassify r).2).isSome =
      ((extract_line_number r.response).isSome &&
        decide (r.err = none) && (r.answer_quote_idx).isSome) := by
  unfold lClassify
  cases hp : extract_line_number r.response with
  | none => simp
  | some pred =>
      by_cases he : r.err = none
      · cases hg : r.answer_quote_idx <;> simp [he, hg]
      · simp [he]

/-- C8: line-number extraction prefers a numeric response as-is, then a
`<line>`-tagged number, then the first bare integer in free text; a row
with no extractable number is classified `false` on all three buckets
rather than excluded; a row counts in `total_valid` exactly when a
prediction was extracted, the row carries no prior error, and a
ground-truth integer is available; and on ground truth 100 with response
"the answer is on line 103" the extraction is 103 giving exact=false,
within5=true, within20=true. -/
theorem line_extraction_preference (n : ℤ) (s : String) (rows : List LRow)
    (i : ℕ) (r : LRow) (h : rows.get? i = some r)
    (hnone : extract_line_number r.response = none) :
    extract_line_number (NCell.num n) = some n ∧
    extract_line_number (NCell.str s) =
      (match tagSearch s.toList with
       | some m => some m
       | none => firstBareInt s) ∧
    ((line_number_evaluation rows).1.get? i = some (lAnnotate r) ∧
      (lAnnotate r).line_exact = some false ∧
      (lAnnotate r).line_within5 = some false ∧
      (lAnnotate r).line_within20 = some false) ∧
    (line_number_evaluation rows).2.total_valid =
      (rows.filter (fun x => (extract_line_number x.response).isSome &&
        decide (x.err = none) && (x.answer_quote_idx).isSome)).length ∧
    extract_line_number (NCell.str "the answer is on line 103") = some 103 ∧
    lAnnotate lrowEx =
      { lrowEx with line_exact := some false, line_within5 := some true,
                    line_within20 := some true } := by
  refine ⟨rfl, rfl, ⟨?_, ?_, ?_, ?_⟩, ?_, by decide, by decide⟩
  · simp only [line_number_evaluation]
    rw [List.get?_map, h]
    rfl
  · simp [lAnnotate, lClassify, hnone]
  · simp [lAnnotate, lClassify, hnone]
  · simp [lAnnotate, lClassify, hnone]
  · simp only [line_number_evaluation]
    rw [List.filter_congr (fun x _ => lClassify_scored x)]

/-- Closed witness for C8 on a concrete table. -/
theorem line_extraction_preference_witness :
    ([lrowNoNum].get? 0 = some lrowNoNum ∧
      extract_line_number lrowNoNum.response = none) ∧
    (line_number_evaluation [lrowNoNum]).2.total_valid =
      ([lrowNoNum].filter
        (fun x => (extract_line_number x.response).isSome &&
          decide (x.err = none) && (x.answer_quote_idx).isSome)).length ∧
    extract_line_number (NCell.str "the answer is on line 103") = some 103 :=
  ⟨⟨rfl, by decide⟩,
   (line_extraction_preference 7 "x" [lrowNoNum] 0 lrowNoNum rfl
      (by decide)).2.2.2.1,
   (line_extraction_preference 7 "x" [lrowNoNum] 0 lrowNoNum rfl
      (by decide)).2.2.2.2.1⟩

theorem lClassify_mono (r : LRow) :
    ((lClassify r).1.1 = true → (lClassify r).1.2.1 = true) ∧
    ((lClassify r).1.2.1 = true → (lClassify r).1.2.2 = true) := by
  unfold lClassify
  cases hp : extract_line_number r.response with
  | none => simp
  | some pred =>
      by_cases he : r.err ≠ none
      · simp [he]
      · cases hg : r.answer_quote_idx with
        | none => simp [he, hg]
        | some gt =>
            simp only [he, hg, if_false, if_neg he]
            simp only [decide_eq_true_eq]
            rcases abs_cases (pred - gt) with ⟨ha, hb⟩ | ⟨ha, hb⟩ <;>
              rw [ha] <;> constructor <;> intro h1 <;> omega

/-- C9: for every row annotated by the line-number check, exact implies
within-5 implies within-20; no row can be exact and not within-20. -/
theorem line_bucket_monotonicity (rows : List LRow) (i : ℕ) (r2 : LRow)
    (h : (line_number_evaluation rows).1.get? i = some r2) :
    (r2.line_exact = some true → r2.line_within5 = some true) ∧
    (r2.line_within5 = some true → r2.line_within20 = some true) ∧
    ¬ (r2.line_exact = some true ∧ r2.line_within20 = some false) := by
  obtain ⟨r, hr, rfl⟩ : ∃ r, rows.get? i = some r ∧ lAnnotate r = r2 := by
    have h2 : (rows.map lAnnotate).get? i = some r2 := by
      simpa [line_number_evaluation] using h
    rw [List.get?_map] at h2
    cases hg : rows.get? i with
    | none =>
        rw [hg] at h2
        simp at h2
    | some r =>
        rw [hg] at h2
        exact ⟨r, rfl, by simpa using h2⟩
  have hm := lClassify_mono r
  refine ⟨?_, ?_, ?_⟩
  · intro he
    have he2 : (lClassify r).1.1 = true := by simpa [lAnnotate] using he
    have h5 := hm.1 he2
    simp [lAnnotate, h5]
  · intro h5
    have h5b : (lClassify r).1.2.1 = true := by simpa [lAnnotate] using h5
    have h20 := hm.2 h5b
    simp [lAnnotate, h20]
  · rintro ⟨he, h20⟩
    have he2 : (lClassify r).1.1 = true := by simpa [lAnnotate] using he
    have h20b := hm.2 (hm.1 he2)
    have h20c : (lClassify r).1.2.2 = false := by simpa [lAnnotate] using h20
    rw [h20b] at h20c
    exact absurd h20c (by decide)

/-- Closed witness for C9 at the spec line-distance scenario row. -/
theorem line_bucket_monotonicity_witness :
    ((line_number_evaluation [lrowEx]).1.get? 0 =
      some { lrowEx with line_exact := some false, line_within5 := some true,
                         line_within20 := some true }) ∧
    (({ lrowEx with line_exact := some false, line_within5 := some true,
                    line_within20 := some true } : LRow).line_within5 =
        some true →
      ({ lrowEx with line_exact := some false, line_within5 := some true,
                     line_within20 := some true } : LRow).line_within20 =
        some true) :=
  ⟨by decide,
   (line_bucket_monotonicity [lrowEx] 0
      { lrowEx with line_exact := some false, line_within5 := some true,
                    line_within20 := some true } (by decide)).2.1⟩

end Relic
